import Mathlib

/-
Shallow embedding of the AI prediction core of the ship planning service:
BaseModel (aiRoutes.ts, second compilation unit), RouteOptimizerModel,
FuelPredictorModel (RouteOptimizerModel.ts, second unit),
MaintenanceForecasterModel, and the orchestrating AIService.

Network arithmetic (dense layers, activations, the confidence heuristic) is
modelled over ℝ.  All post-processing pipelines use only field operations,
comparisons, floor and list traversals, so they are modelled over ℚ
(every IEEE double the runtime produces is an exact rational; rounding of
individual float operations is abstracted, the case analysis on NaN and
division by zero in the confidence heuristic is modelled explicitly).
-/

namespace Ships

/-! ## Real-valued network layer semantics (BaseModel + the three buildModel
architectures).  TensorFlow.js inference applies each layer in sequence; at
inference time a dropout layer is the identity and a batch-normalization
layer is a fixed per-component affine transform, so those are modelled as
identity (omitted) and an affine map with learned coefficients. -/

noncomputable section RealNetwork

/-- Rectified linear unit, the activation of every hidden dense layer. -/
def relu (x : ℝ) : ℝ := max x 0

/-- Logistic sigmoid, the saturating activation of the final dense layer of
the route-optimizer and maintenance-forecaster networks. -/
def sigmoid (x : ℝ) : ℝ := 1 / (1 + Real.exp (-x))

/-- Dot product of a weight row with the input vector. -/
def dot (w x : List ℝ) : ℝ := ((w.zip x).map fun p => p.1 * p.2).sum

/-- A dense layer: each output unit applies the activation to the affine
combination given by its weight row and bias. -/
def dense (act : ℝ → ℝ) (w : List (List ℝ)) (b : List ℝ) (x : List ℝ) : List ℝ :=
  (w.zip b).map fun rb => act (dot rb.1 x + rb.2)

/-- Inference-time batch normalization: a per-component affine transform
with coefficients derived from the learned gamma, beta and the moving
moments. -/
def batchNorm (scale shift x : List ℝ) : List ℝ :=
  (x.zip (scale.zip shift)).map fun p => p.2.1 * p.1 + p.2.2

/-- Learned parameters of the route-optimizer network: dense(64, relu),
dropout, dense(32, relu), dropout, dense(16, relu), dense(4, sigmoid). -/
structure RouteNetParams where
  w1 : List (List ℝ)
  b1 : List ℝ
  w2 : List (List ℝ)
  b2 : List ℝ
  w3 : List (List ℝ)
  b3 : List ℝ
  w4 : List (List ℝ)
  b4 : List ℝ

/-- Forward pass of RouteOptimizerModel.buildModel (dropout is the identity
at inference time). -/
def routeForward (p : RouteNetParams) (x : List ℝ) : List ℝ :=
  dense sigmoid p.w4 p.b4 (dense relu p.w3 p.b3 (dense relu p.w2 p.b2 (dense relu p.w1 p.b1 x)))

/-- Learned parameters of the maintenance-forecaster network:
dense(128, relu), batchNormalization, dropout, dense(64, relu), dropout,
dense(32, relu), dropout, dense(16, relu), dense(5, sigmoid). -/
structure MaintNetParams where
  w1 : List (List ℝ)
  b1 : List ℝ
  bnScale : List ℝ
  bnShift : List ℝ
  w2 : List (List ℝ)
  b2 : List ℝ
  w3 : List (List ℝ)
  b3 : List ℝ
  w4 : List (List ℝ)
  b4 : List ℝ
  w5 : List (List ℝ)
  b5 : List ℝ

/-- Forward pass of MaintenanceForecasterModel.buildModel. -/
def maintForward (p : MaintNetParams) (x : List ℝ) : List ℝ :=
  dense sigmoid p.w5 p.b5 (dense relu p.w4 p.b4 (dense relu p.w3 p.b3
    (dense relu p.w2 p.b2 (batchNorm p.bnScale p.bnShift (dense relu p.w1 p.b1 x)))))

/-- Learned parameters of the fuel-predictor network: dense(128, relu),
batchNormalization, dropout, dense(64, relu), dropout, dense(32, relu),
dropout, dense(16, relu), dense(3, linear). -/
structure FuelNetParams where
  w1 : List (List ℝ)
  b1 : List ℝ
  bnScale : List ℝ
  bnShift : List ℝ
  w2 : List (List ℝ)
  b2 : List ℝ
  w3 : List (List ℝ)
  b3 : List ℝ
  w4 : List (List ℝ)
  b4 : List ℝ
  wOut : List (List ℝ)
  bOut : List ℝ

/-- Forward pass of FuelPredictorModel.buildModel.  The final layer has a
linear activation, so its output components are NOT passed through a
saturating stage. -/
def fuelForward (p : FuelNetParams) (x : List ℝ) : List ℝ :=
  dense id p.wOut p.bOut (dense relu p.w4 p.b4 (dense relu p.w3 p.b3
    (dense relu p.w2 p.b2 (batchNorm p.bnScale p.bnShift (dense relu p.w1 p.b1 x)))))

/-- Math.max over the spread values (only used on nonempty vectors; the
empty case is folded into the NaN case of the confidence heuristic). -/
def maxOf : List ℝ → ℝ
  | [] => 0
  | x :: xs => xs.foldl max x

/-- Math.min over the spread values. -/
def minOf : List ℝ → ℝ
  | [] => 0
  | x :: xs => xs.foldl min x

/-- BaseModel.calculateConfidence:
`Math.max(0, Math.min(1, 1 - (range / max)))` with `range = max - min`.
IEEE semantics of the source are modelled exactly:
with `max = 0` and `range = 0` the division is 0/0 = NaN, which propagates
through Math.min and Math.max, so the function returns NaN (modelled as
`none`); with `max = 0` and `range > 0` the division is +infinity, so the
clamped result is 0; otherwise the expression is finite and real division
models it.  On an empty vector Math.max yields -infinity and the result is
again NaN. -/
def calculateConfidence : List ℝ → Option ℝ
  | [] => none
  | v :: vs =>
    let values := v :: vs
    let mx := maxOf values
    let mn := minOf values
    let range := mx - mn
    if mx = 0 then (if range = 0 then none else some 0)
    else some (max 0 (min 1 (1 - range / mx)))

end RealNetwork

/-- Concrete parameters for the final nontrivial layers used by the C1
witness (weight shapes of the hidden stack are irrelevant to the bound). -/
noncomputable def routeWitnessParams : RouteNetParams :=
  ⟨[], [], [], [], [], [], [[1]], [0]⟩

/-- Concrete maintenance-forecaster parameters for the C1 witness. -/
noncomputable def maintWitnessParams : MaintNetParams :=
  ⟨[], [], [], [], [], [], [], [], [], [], [[1]], [0]⟩

/-- A concrete fuel-predictor parameter set with the architecture of
FuelPredictorModel.buildModel (layer widths 128/64/32/16/3): all weights
zero and the final bias vector (2, 2, 2). -/
noncomputable def fuelCexParams : FuelNetParams where
  w1 := List.replicate 128 (List.replicate 20 0)
  b1 := List.replicate 128 0
  bnScale := List.replicate 128 0
  bnShift := List.replicate 128 0
  w2 := List.replicate 64 (List.replicate 128 0)
  b2 := List.replicate 64 0
  w3 := List.replicate 32 (List.replicate 64 0)
  b3 := List.replicate 32 0
  w4 := List.replicate 16 (List.replicate 32 0)
  b4 := List.replicate 16 0
  wOut := List.replicate 3 (List.replicate 16 0)
  bOut := List.replicate 3 2

/-! ## Orchestrator (AIService): prediction history and evaluation -/

/-- One entry of AIService.predictionHistory.  Timestamps are epoch
milliseconds; confidences are the stored rational float values. -/
structure PredictionEntry where
  modelName : String
  timestamp : ℚ
  confidence : ℚ
  success : Bool
deriving DecidableEq

/-- AIService.recordPrediction: push the new entry, then keep only the most
recent 1000 entries (`slice(-1000)`) when the length exceeds 1000. -/
def recordPrediction (history : List PredictionEntry) (e : PredictionEntry) :
    List PredictionEntry :=
  let h := history ++ [e]
  if 1000 < h.length then h.drop (h.length - 1000) else h

/-- The history after recording a sequence of predictions starting from the
empty history a fresh AIService owns. -/
def historyAfter (es : List PredictionEntry) : List PredictionEntry :=
  es.foldl recordPrediction []

/-- AIService.evaluateModels, per model name: the score derived from the
entries for that model among the most recent 100 entries of the whole
history (`predictionHistory.slice(-100)` then a per-model filter). -/
def evaluateModel (history : List PredictionEntry) (modelName : String) : ℚ :=
  let recentPredictions := history.drop (history.length - 100)
  let modelPredictions := recentPredictions.filter fun p => p.modelName == modelName
  if 0 < modelPredictions.length then
    let successRate : ℚ :=
      ((modelPredictions.filter fun p => p.success).length : ℚ) / modelPredictions.length
    let avgConfidence : ℚ :=
      (modelPredictions.foldl (fun sum p => sum + p.confidence) 0) / modelPredictions.length
    successRate * (7/10) + avgConfidence * (3/10)
  else 1/2

/-- The claimed evaluation, following the words of the spec sentence: the
score over the last 100 history entries FOR THAT MODEL (filter first, then
take the most recent 100), with 0.5 exactly when the model has no history
entries at all.  Kept separate from `evaluateModel`, which is translated
from the source, for the refutation of C3. -/
def evaluateModelClaimed (history : List PredictionEntry) (modelName : String) : ℚ :=
  let modelHistory := history.filter fun p => p.modelName == modelName
  let lastHundred := modelHistory.drop (modelHistory.length - 100)
  if 0 < lastHundred.length then
    let successRate : ℚ :=
      ((lastHundred.filter fun p => p.success).length : ℚ) / lastHundred.length
    let avgConfidence : ℚ :=
      (lastHundred.foldl (fun sum p => sum + p.confidence) 0) / lastHundred.length
    (7/10) * successRate + (3/10) * avgConfidence
  else 1/2

/-- A successful fuel-predictor prediction with confidence 1. -/
def fuelEntry : PredictionEntry := ⟨"fuel-predictor", 0, 1, true⟩

/-- A successful route-optimizer prediction with confidence 0. -/
def routeEntry : PredictionEntry := ⟨"route-optimizer", 0, 0, true⟩

/-- A history holding 100 fuel-predictor entries followed by 100
route-optimizer entries. -/
def staleFuelHistory : List PredictionEntry :=
  List.replicate 100 fuelEntry ++ List.replicate 100 routeEntry

/-! ## BaseModel lifecycle (aiRoutes.ts, second compilation unit) -/

/-- The training-set shape passed to BaseModel.train. -/
structure TrainingData where
  inputs : List (List ℚ)
  outputs : List (List ℚ)
  validationSplit : ℚ
deriving DecidableEq

/-- The mutable lifecycle state of a BaseModel: the (possibly absent)
compiled network and the isLoaded flag.  The network value itself and the
TensorFlow fitting routine are external library state, abstracted by the
type parameter. -/
structure BaseModelState (Net : Type) where
  model : Option Net
  isLoaded : Bool

/-- The state of a freshly constructed BaseModel: `model = null`,
`isLoaded = false`. -/
def BaseModel.initialState {Net : Type} : BaseModelState Net := ⟨none, false⟩

/-- BaseModel.initialize: load the persisted artifact if present, otherwise
build and compile a fresh network; either way the state ends with a model
present and `isLoaded = true`.  The artifact-or-fresh network is the
externally produced `net`. -/
def BaseModel.initialize {Net : Type} (net : Net) (_st : BaseModelState Net) :
    BaseModelState Net :=
  ⟨some net, true⟩

/-- BaseModel.train: the source first checks `if (!this.model) throw new
Error('Model not initialized')` and only then compiles/fits/saves.  The
fitting itself (`tf.LayersModel.fit`) is external library computation,
abstracted as `fit`. -/
def BaseModel.train {Net Hist : Type} (fit : Net → TrainingData → Hist)
    (st : BaseModelState Net) (trainingData : TrainingData) : Except String Hist :=
  match st.model with
  | none => Except.error "Model not initialized"
  | some m => Except.ok (fit m trainingData)

/-! ## RouteOptimizerModel post-processing and the Orchestrator record
paths (C9).  The haversine distance is a transcendental closed form whose
float value is passed in as `distance`; the waypoint generators draw on
Math.random and their results are passed in as data. -/

/-- A latitude/longitude pair. -/
structure GeoPoint where
  latitude : ℚ
  longitude : ℚ
deriving DecidableEq

/-- RouteInput.shipSpecs. -/
structure RouteShipSpecs where
  maxSpeed : ℚ
  fuelCapacity : ℚ
  cargoCapacity : ℚ
  currentCargoWeight : ℚ
deriving DecidableEq

/-- One alternative route with its naive metrics. -/
structure AlternativeRoute where
  route : List GeoPoint
  time : ℚ
  fuel : ℚ
  risk : ℚ
deriving DecidableEq

/-- The RouteOptimization result record. -/
structure RouteOptimization where
  optimizedRoute : List GeoPoint
  estimatedTime : ℚ
  estimatedFuelConsumption : ℚ
  weatherRiskScore : ℚ
  totalDistance : ℚ
  alternativeRoutes : List AlternativeRoute
deriving DecidableEq

/-- RouteOptimizerModel.calculateBaseTime: distance over speed. -/
def calculateBaseTime (distance speed : ℚ) : ℚ := distance / speed

/-- RouteOptimizerModel.calculateBaseFuelConsumption: 0.3 liters per
nautical mile, a cargo factor of up to 20 percent, and a quadratic speed
factor referenced at 20 knots. -/
def calculateBaseFuelConsumption (distance : ℚ) (shipSpecs : RouteShipSpecs) : ℚ :=
  (distance * (3/10)) * (1 + shipSpecs.currentCargoWeight / shipSpecs.cargoCapacity * (1/5)) *
    (shipSpecs.maxSpeed / 20) ^ 2

/-- RouteOptimizerModel.optimizeRoute after the inference call: the raw
output vector is destructured as (timeFactor, fuelFactor, riskScore,
routeEfficiency), the physics baselines are scaled by bounded correction
factors, and `weatherRiskScore` is set to the RAW risk component, not to
the spread-heuristic confidence (`conf` is unused here).  The waypoint
list and the alternative routes involve Math.random and are passed in as
data (`routeEfficiency` only influences the waypoint count). -/
def optimizeRouteResult (timeFactor fuelFactor riskScore _routeEfficiency _conf : ℚ)
    (shipSpecs : RouteShipSpecs) (distance : ℚ) (optimizedRoute : List GeoPoint)
    (alternativeRoutes : List AlternativeRoute) : RouteOptimization where
  optimizedRoute := optimizedRoute
  estimatedTime := calculateBaseTime distance shipSpecs.maxSpeed * (1 + timeFactor * (1/2))
  estimatedFuelConsumption :=
    calculateBaseFuelConsumption distance shipSpecs * (1 + fuelFactor * (3/10))
  weatherRiskScore := riskScore
  totalDistance := distance
  alternativeRoutes := alternativeRoutes

/-- AIService.optimizeRoute, success path: record
`(route-optimizer, now, optimization.weatherRiskScore, success)` into the
history before returning. -/
def AIService.optimizeRouteRecord (history : List PredictionEntry) (now : ℚ)
    (optimization : RouteOptimization) : List PredictionEntry :=
  recordPrediction history ⟨"route-optimizer", now, optimization.weatherRiskScore, true⟩

/-- AIService.predictFuelConsumption, success path: record
`(fuel-predictor, now, prediction.confidence, success)`.  Only the
confidence field of the fuel prediction is consulted. -/
def AIService.predictFuelRecord (history : List PredictionEntry) (now : ℚ)
    (predictionConfidence : ℚ) : List PredictionEntry :=
  recordPrediction history ⟨"fuel-predictor", now, predictionConfidence, true⟩

/-! ## MaintenanceForecasterModel data model.

Date values are epoch milliseconds (Date.getTime).  Fields whose runtime
presence the source checks dynamically (the maintenance-history array, the
four sensor arrays and the last-readings record) are modelled as `Option`;
`none` models a missing or non-array value that the preprocessing step
overwrites with a default.  Event dates and the last-maintenance date are
taken to be valid Date objects (the HTTP layer rejects requests without
them, and an invalid date is defaulted by `validateDate`). -/

/-- One entry of component.maintenanceHistory. -/
structure MaintEvent where
  date : ℚ
  eventType : String
  cost : ℚ
  downtime : ℚ
  description : String
deriving DecidableEq

/-- component.operatingConditions. -/
structure OperatingConditions where
  averageLoad : ℚ
  temperature : ℚ
  vibration : ℚ
  pressure : ℚ
deriving DecidableEq

/-- The ship block of a MaintenanceInput. -/
structure ShipInfo where
  id : String
  shipType : String
  age : ℚ
  length : ℚ
  enginePower : ℚ
  hoursOperated : ℚ
deriving DecidableEq

/-- The component block of a MaintenanceInput. -/
structure ComponentInfo where
  componentType : String
  lastMaintenanceDate : ℚ
  maintenanceHistory : Option (List MaintEvent)
  operatingConditions : OperatingConditions
deriving DecidableEq

/-- usage.environmentalConditions. -/
structure EnvironmentalConditions where
  saltWaterExposure : ℚ
  temperatureVariation : ℚ
  roughSeaExposure : ℚ
deriving DecidableEq

/-- The usage block of a MaintenanceInput. -/
structure UsageInfo where
  dailyOperatingHours : ℚ
  voyagesPerMonth : ℚ
  averageVoyageDistance : ℚ
  environmentalConditions : EnvironmentalConditions
deriving DecidableEq

/-- sensors.lastReadings. -/
structure SensorReadings where
  temperature : ℚ
  vibration : ℚ
  pressure : ℚ
  efficiency : ℚ
deriving DecidableEq

/-- The sensors block of a MaintenanceInput. -/
structure SensorData where
  temperature : Option (List ℚ)
  vibration : Option (List ℚ)
  pressure : Option (List ℚ)
  efficiency : Option (List ℚ)
  lastReadings : Option SensorReadings
deriving DecidableEq

/-- A full MaintenanceInput record. -/
structure MaintenanceInput where
  ship : ShipInfo
  component : ComponentInfo
  usage : UsageInfo
  sensors : SensorData
deriving DecidableEq

/-- The default lastReadings substituted when the field is missing. -/
def defaultLastReadings : SensorReadings := ⟨0, 0, 0, 1⟩

/-- Milliseconds per day, the divisor `1000 * 60 * 60 * 24`. -/
def dayMs : ℚ := 86400000

/-- The five raw output components of the maintenance network, as
destructured by predictMaintenance (the source asserts the raw vector has
length exactly 5 before destructuring). -/
structure Raw5 where
  riskScore : ℚ
  daysToFailureFactor : ℚ
  costFactor : ℚ
  downtimeFactor : ℚ
  urgencyFactor : ℚ
deriving DecidableEq

/-- The maintenance type selected by the risk/urgency thresholds. -/
inductive MaintenanceKind
  | preventive
  | corrective
  | emergency
deriving DecidableEq

/-- One alternative maintenance schedule. -/
structure AlternativeSchedule where
  date : ℚ
  scheduleType : String
  cost : ℚ
  risk : ℚ
deriving DecidableEq

/-- The five factor sub-scores. -/
structure FactorScores where
  ageScore : ℚ
  usageScore : ℚ
  conditionScore : ℚ
  historyScore : ℚ
  sensorScore : ℚ
deriving DecidableEq

/-- The MaintenancePrediction result record. -/
structure MaintenancePrediction where
  riskScore : ℚ
  predictedFailureDate : Option ℚ
  recommendedMaintenanceDate : ℚ
  maintenanceType : MaintenanceKind
  estimatedCost : ℚ
  estimatedDowntime : ℚ
  confidence : ℚ
  factors : FactorScores
  recommendations : List String
  alternativeSchedules : List AlternativeSchedule
deriving DecidableEq

/-- MaintenanceForecasterModel.preprocessInput, mutation part: a missing or
non-array maintenance history and missing or non-array sensor series are
overwritten in place with empty arrays, and a missing lastReadings record
is overwritten with the default readings.  No other field of the record is
written. -/
def preprocessMutation (data : MaintenanceInput) : MaintenanceInput :=
  { data with
    component := { data.component with
      maintenanceHistory := some (data.component.maintenanceHistory.getD []) }
    sensors :=
      { temperature := some (data.sensors.temperature.getD [])
        vibration := some (data.sensors.vibration.getD [])
        pressure := some (data.sensors.pressure.getD [])
        efficiency := some (data.sensors.efficiency.getD [])
        lastReadings := some (data.sensors.lastReadings.getD defaultLastReadings) } }

/-- MaintenanceForecasterModel.encodeShipType (`typeMap[type] || 0.5`). -/
def encodeShipType (t : String) : ℚ :=
  if t == "cargo" then 1/5
  else if t == "tanker" then 2/5
  else if t == "container" then 3/5
  else if t == "bulk" then 4/5
  else if t == "passenger" then 1
  else 1/2

/-- MaintenanceForecasterModel.encodeComponentType (`typeMap[type] || 0.5`). -/
def encodeComponentType (t : String) : ℚ :=
  if t == "engine" then 1
  else if t == "propeller" then 4/5
  else if t == "hull" then 3/5
  else if t == "navigation" then 2/5
  else if t == "electrical" then 3/10
  else if t == "hydraulic" then 1/5
  else if t == "hvac" then 1/10
  else 1/2

/-- MaintenanceForecasterModel.calculateAverageMaintenanceInterval: 365
days when fewer than two history events exist, otherwise the mean of the
floored day differences between consecutive events. -/
def calculateAverageMaintenanceInterval (history : List MaintEvent) : ℚ :=
  if history.length < 2 then 365
  else
    let intervals := (history.zip history.tail).map
      fun p => ((⌊(p.2.date - p.1.date) / dayMs⌋ : ℤ) : ℚ)
    intervals.sum / intervals.length

/-- MaintenanceForecasterModel.calculateMaintenanceCostTrend.  (With fewer
than three events the trend is 0.  A zero earlier average makes the source
produce an IEEE infinity that the clamp maps to 1 or -1 or a NaN; the
feature vector is not the subject of any claim and rational division by
zero is used here.) -/
def calculateMaintenanceCostTrend (history : List MaintEvent) : ℚ :=
  if history.length < 3 then 0
  else
    let recentCosts := (history.drop (history.length - 3)).map fun h => h.cost
    let earlierCosts := (history.take 3).map fun h => h.cost
    let recentAvg := recentCosts.sum / recentCosts.length
    let earlierAvg := earlierCosts.sum / earlierCosts.length
    min 1 (max (-1) ((recentAvg - earlierAvg) / earlierAvg))

/-- The inner calculateTrend of calculateSensorTrends.  The dynamic
filtering of non-numeric entries is the identity on these lists of
rationals. -/
def calculateTrend (values : List ℚ) : ℚ :=
  if values.length < 3 then 0
  else
    let recent := values.drop (values.length - 5)
    let earlier := values.take 5
    if recent.length = 0 ∨ earlier.length = 0 then 0
    else
      let recentAvg := recent.sum / recent.length
      let earlierAvg := earlier.sum / earlier.length
      if earlierAvg = 0 then 0
      else min 1 (max (-1) ((recentAvg - earlierAvg) / earlierAvg))

/-- MaintenanceForecasterModel.calculateSensorTrends on the temperature and
vibration series. -/
def calculateSensorTrends (sensors : SensorData) : ℚ × ℚ :=
  (calculateTrend (sensors.temperature.getD []), calculateTrend (sensors.vibration.getD []))

/-- MaintenanceForecasterModel.preprocessInput: mutates the caller record
as in `preprocessMutation` and returns the 25-component normalized feature
vector.  (The source also computes an average maintenance interval here and
never uses it.) -/
def preprocessInput (data : MaintenanceInput) (now : ℚ) : MaintenanceInput × List ℚ :=
  let d := preprocessMutation data
  let lastMaintenanceDate := d.component.lastMaintenanceDate
  let history := d.component.maintenanceHistory.getD []
  let daysSinceLastMaintenance : ℚ := ((⌊(now - lastMaintenanceDate) / dayMs⌋ : ℤ) : ℚ)
  let trends := calculateSensorTrends d.sensors
  let lastReadings := d.sensors.lastReadings.getD defaultLastReadings
  (d,
   [d.ship.age / 50,
    d.ship.length / 400,
    d.ship.enginePower / 50000,
    d.ship.hoursOperated / 100000,
    encodeShipType d.ship.shipType,
    encodeComponentType d.component.componentType,
    daysSinceLastMaintenance / 365,
    (history.length : ℚ) / 50,
    calculateMaintenanceCostTrend history,
    d.component.operatingConditions.averageLoad,
    d.component.operatingConditions.temperature / 100,
    d.component.operatingConditions.vibration / 10,
    d.component.operatingConditions.pressure / 50,
    d.usage.dailyOperatingHours / 24,
    d.usage.voyagesPerMonth / 30,
    d.usage.averageVoyageDistance / 10000,
    d.usage.environmentalConditions.saltWaterExposure,
    d.usage.environmentalConditions.temperatureVariation / 50,
    d.usage.environmentalConditions.roughSeaExposure,
    lastReadings.temperature / 100,
    lastReadings.vibration / 10,
    lastReadings.pressure / 50,
    lastReadings.efficiency,
    trends.1,
    trends.2])

/-- MaintenanceForecasterModel.calculateBaseCost: the per-component-type
per-maintenance-type base cost table, defaulting to 1000. -/
def calculateBaseCost (componentType : String) (k : MaintenanceKind) : ℚ :=
  if componentType == "engine" then
    match k with | .preventive => 5000 | .corrective => 15000 | .emergency => 35000
  else if componentType == "propeller" then
    match k with | .preventive => 2000 | .corrective => 8000 | .emergency => 20000
  else if componentType == "hull" then
    match k with | .preventive => 3000 | .corrective => 12000 | .emergency => 30000
  else if componentType == "navigation" then
    match k with | .preventive => 1500 | .corrective => 5000 | .emergency => 12000
  else if componentType == "electrical" then
    match k with | .preventive => 1000 | .corrective => 4000 | .emergency => 10000
  else if componentType == "hydraulic" then
    match k with | .preventive => 1200 | .corrective => 4500 | .emergency => 11000
  else if componentType == "hvac" then
    match k with | .preventive => 800 | .corrective => 2500 | .emergency => 6000
  else 1000

/-- MaintenanceForecasterModel.calculateBaseDowntime: the base downtime
table in hours, defaulting to 8. -/
def calculateBaseDowntime (componentType : String) (k : MaintenanceKind) : ℚ :=
  if componentType == "engine" then
    match k with | .preventive => 8 | .corrective => 24 | .emergency => 72
  else if componentType == "propeller" then
    match k with | .preventive => 12 | .corrective => 36 | .emergency => 96
  else if componentType == "hull" then
    match k with | .preventive => 24 | .corrective => 72 | .emergency => 168
  else if componentType == "navigation" then
    match k with | .preventive => 4 | .corrective => 12 | .emergency => 24
  else if componentType == "electrical" then
    match k with | .preventive => 6 | .corrective => 18 | .emergency => 48
  else if componentType == "hydraulic" then
    match k with | .preventive => 8 | .corrective => 20 | .emergency => 56
  else if componentType == "hvac" then
    match k with | .preventive => 4 | .corrective => 10 | .emergency => 24
  else 8

/-- MaintenanceForecasterModel.calculateFactorScores over the (mutated)
input record. -/
def calculateFactorScores (input : MaintenanceInput) : FactorScores :=
  let lastReadings := input.sensors.lastReadings.getD defaultLastReadings
  { ageScore := min 1 (input.ship.age / 25)
    usageScore := min 1
      ((input.usage.dailyOperatingHours / 16) * (1/2) +
        (input.usage.voyagesPerMonth / 20) * (3/10) +
        input.usage.environmentalConditions.roughSeaExposure * (1/5))
    conditionScore := min 1
      (input.component.operatingConditions.averageLoad * (2/5) +
        (input.component.operatingConditions.vibration / 10) * (3/10) +
        (input.component.operatingConditions.temperature / 100) * (3/10))
    historyScore := min 1 (((input.component.maintenanceHistory.getD []).length : ℚ) / 20)
    sensorScore := min 1
      ((1 - lastReadings.efficiency) * (1/2) +
        (lastReadings.vibration / 10) * (3/10) +
        (lastReadings.temperature / 100) * (1/5)) }

/-- MaintenanceForecasterModel.generateRecommendations. -/
def generateRecommendations (input : MaintenanceInput) (riskScore : ℚ)
    (k : MaintenanceKind) (now : ℚ) : List String :=
  let lastReadings := input.sensors.lastReadings.getD defaultLastReadings
  let daysSinceMaintenance : ℤ := ⌊(now - input.component.lastMaintenanceDate) / dayMs⌋
  (if riskScore > 4/5 then
    ["Schedule immediate inspection", "Consider reducing operational load"] else []) ++
  (if k = .emergency then
    ["Prioritize emergency maintenance scheduling", "Prepare backup systems if available"]
   else []) ++
  (if lastReadings.efficiency < 7/10 then
    ["Component efficiency is below optimal - consider replacement"] else []) ++
  (if input.component.operatingConditions.vibration > 7 then
    ["High vibration detected - check alignment and mounting"] else []) ++
  (if daysSinceMaintenance > 365 then
    ["Component overdue for scheduled maintenance"] else [])

/-- MaintenanceForecasterModel.generateAlternativeSchedules. -/
def generateAlternativeSchedules (recommendedDate baseCost riskScore : ℚ) :
    List AlternativeSchedule :=
  [⟨recommendedDate - 7 * dayMs, "Preventive (Early)", baseCost * (9/10), riskScore * (4/5)⟩] ++
  (if riskScore < 7/10 then
    [⟨recommendedDate + 14 * dayMs, "Preventive (Delayed)", baseCost * (11/10),
      riskScore * (6/5)⟩]
   else [])

/-- MaintenanceForecasterModel.predictMaintenance after the inference call.
The call `this.predict(input)` runs preprocessInput, which mutates the
input record before the post-processing below reads it; `raw` is the
5-component output vector and `conf` the spread-heuristic confidence of the
PredictionResult. -/
def predictMaintenance (raw : Raw5) (conf : ℚ) (input0 : MaintenanceInput) (now : ℚ) :
    MaintenancePrediction :=
  let input := (preprocessInput input0 now).1
  let averageInterval :=
    calculateAverageMaintenanceInterval (input.component.maintenanceHistory.getD [])
  let baseDaysToFailure := averageInterval * (6/5)
  let predictedDaysToFailure := max 1 (baseDaysToFailure * (1 - raw.daysToFailureFactor))
  let predictedFailureDate :=
    if raw.riskScore > 4/5 then some (now + predictedDaysToFailure * dayMs) else none
  let recommendedMaintenanceDate := now + max 7 (predictedDaysToFailure * (7/10)) * dayMs
  let maintenanceType :=
    if raw.riskScore > 9/10 ∨ raw.urgencyFactor > 9/10 then MaintenanceKind.emergency
    else if raw.riskScore > 3/5 then MaintenanceKind.corrective
    else MaintenanceKind.preventive
  let baseCost := calculateBaseCost input.component.componentType maintenanceType
  let estimatedCost := baseCost * (1 + raw.costFactor * (1/2))
  let baseDowntime := calculateBaseDowntime input.component.componentType maintenanceType
  let estimatedDowntime := baseDowntime * (1 + raw.downtimeFactor * (2/5))
  { riskScore := raw.riskScore
    predictedFailureDate := predictedFailureDate
    recommendedMaintenanceDate := recommendedMaintenanceDate
    maintenanceType := maintenanceType
    estimatedCost := estimatedCost
    estimatedDowntime := estimatedDowntime
    confidence := conf
    factors := calculateFactorScores input
    recommendations := generateRecommendations input raw.riskScore maintenanceType now
    alternativeSchedules :=
      generateAlternativeSchedules recommendedMaintenanceDate estimatedCost raw.riskScore }

/-- AIService.predictMaintenance, success path: record
`(maintenance-forecaster, now, prediction.confidence, success)`. -/
def AIService.predictMaintenanceRecord (history : List PredictionEntry) (now : ℚ)
    (prediction : MaintenancePrediction) : List PredictionEntry :=
  recordPrediction history ⟨"maintenance-forecaster", now, prediction.confidence, true⟩

/-- The FuelPrediction result record of FuelPredictorModel. -/
structure FuelPrediction where
  totalConsumption : ℚ
  consumptionRate : ℚ
  mainEngineConsumption : ℚ
  auxiliaryConsumption : ℚ
  efficiency : ℚ
  co2Emissions : ℚ
  confidence : ℚ
  weatherImpact : ℚ
  loadImpact : ℚ
  speedImpact : ℚ
  seaStateImpact : ℚ
deriving DecidableEq

/-! ## MaintenanceForecasterModel.analyzeFleetHealth.

Each input is pushed through predictMaintenance; a throwing prediction is
logged and skipped.  The inference outcome per input (raw vector and
confidence, or a thrown error) is external model state, abstracted as the
oracle `net`. -/

/-- The fleet-health trend label. -/
inductive HealthTrend
  | improving
  | stable
  | degrading
deriving DecidableEq

/-- One upcomingMaintenance entry. -/
structure UpcomingEntry where
  component : String
  date : ℚ
  priority : String
deriving DecidableEq

/-- The ComponentHealth result record. -/
structure ComponentHealth where
  overall : ℚ
  trend : HealthTrend
  criticalIssues : List String
  upcomingMaintenance : List UpcomingEntry
deriving DecidableEq

/-- The three arrays the analyzeFleetHealth loop accumulates. -/
structure FleetAcc where
  predictions : List MaintenancePrediction
  criticalIssues : List String
  upcomingMaintenance : List UpcomingEntry
deriving DecidableEq

/-- The critical-issue string pushed for a prediction with risk above 0.8. -/
def criticalIssueMessage (input : MaintenanceInput) : String :=
  input.component.componentType ++ " on ship " ++ input.ship.id ++
    " requires immediate attention"

/-- The upcomingMaintenance entry pushed for a prediction with risk above
0.5, with its threshold priority label. -/
def upcomingEntryOf (input : MaintenanceInput) (p : MaintenancePrediction) : UpcomingEntry :=
  { component := input.ship.id ++ "-" ++ input.component.componentType
    date := p.recommendedMaintenanceDate
    priority :=
      if p.riskScore > 4/5 then "critical"
      else if p.riskScore > 3/5 then "high"
      else if p.riskScore > 2/5 then "medium"
      else "low" }

/-- The body of the analyzeFleetHealth loop for one input. -/
def fleetStep (net : MaintenanceInput → Option (Raw5 × ℚ)) (now : ℚ)
    (acc : FleetAcc) (input : MaintenanceInput) : FleetAcc :=
  match net input with
  | none => acc
  | some rc =>
    let p := predictMaintenance rc.1 rc.2 input now
    { predictions := acc.predictions ++ [p]
      criticalIssues := acc.criticalIssues ++
        (if p.riskScore > 4/5 then [criticalIssueMessage input] else [])
      upcomingMaintenance := acc.upcomingMaintenance ++
        (if p.riskScore > 1/2 then [upcomingEntryOf input p] else []) }

/-- MaintenanceForecasterModel.analyzeFleetHealth: run the loop, then
aggregate.  The empty-predictions trend case reflects IEEE semantics of the
source: the average risk of zero predictions is 0/0 = NaN, both NaN
comparisons are false, and the trend falls through to stable. -/
def analyzeFleetHealth (net : MaintenanceInput → Option (Raw5 × ℚ)) (now : ℚ)
    (inputs : List MaintenanceInput) : ComponentHealth :=
  let acc := inputs.foldl (fleetStep net now) ⟨[], [], []⟩
  let predictions := acc.predictions
  let overall :=
    if 0 < predictions.length then
      (predictions.foldl (fun sum p => sum + (1 - p.riskScore)) (0 : ℚ)) / predictions.length
    else 1
  let trend :=
    if predictions.isEmpty then HealthTrend.stable
    else
      let avgRisk :=
        (predictions.foldl (fun sum p => sum + p.riskScore) (0 : ℚ)) / predictions.length
      if avgRisk > 3/5 then HealthTrend.degrading
      else if avgRisk < 3/10 then HealthTrend.improving
      else HealthTrend.stable
  { overall := overall
    trend := trend
    criticalIssues := acc.criticalIssues
    upcomingMaintenance :=
      acc.upcomingMaintenance.mergeSort fun a b => decide (a.date ≤ b.date) }

/-- The inputs that predict successfully, paired with their predictions, in
input order. -/
def successPairs (net : MaintenanceInput → Option (Raw5 × ℚ)) (now : ℚ)
    (inputs : List MaintenanceInput) : List (MaintenanceInput × MaintenancePrediction) :=
  inputs.filterMap fun i => (net i).map fun rc => (i, predictMaintenance rc.1 rc.2 i now)

/-- A concrete maintenance input (the engine example of the examples
endpoint, with rational sensor values and epoch-0 dates). -/
def sampleInput : MaintenanceInput where
  ship := ⟨"ship-001", "container", 12, 300, 25000, 45000⟩
  component := ⟨"engine", 0, some [], ⟨3/4, 60, 16/5, 25⟩⟩
  usage := ⟨18, 8, 2500, ⟨9/10, 30, 3/5⟩⟩
  sensors :=
    ⟨some [58, 60, 62, 59, 61], some [3, 3, 3, 3, 3], some [24, 25, 25, 26, 25],
      some [17/20, 21/25, 83/100, 41/50, 81/100], some ⟨61, 16/5, 25, 81/100⟩⟩

/-- A maintenance-forecaster oracle that always predicts the zero raw
vector with confidence 1. -/
def zeroNet : MaintenanceInput → Option (Raw5 × ℚ) := fun _ => some (⟨0, 0, 0, 0, 0⟩, 1)

/-- Two maintenance-history events on the same day. -/
def twoSameDayEvents : List MaintEvent :=
  [⟨0, "preventive", 0, 0, ""⟩, ⟨0, "preventive", 0, 0, ""⟩]

/-- `sampleInput` with a maintenance history of two same-day events, so the
mean historical maintenance interval is 0 days. -/
def sameDayHistoryInput : MaintenanceInput :=
  { sampleInput with
    component := { sampleInput.component with maintenanceHistory := some twoSameDayEvents } }

/-! Basic facts about the network activations and the confidence heuristic. -/

theorem sigmoid_pos (x : ℝ) : 0 < sigmoid x := by
  unfold sigmoid
  have h : 0 < 1 + Real.exp (-x) := by positivity
  positivity

theorem sigmoid_le_one (x : ℝ) : sigmoid x ≤ 1 := by
  unfold sigmoid
  have h : 0 < 1 + Real.exp (-x) := by positivity
  rw [div_le_one h]
  have := Real.exp_pos (-x)
  linarith

theorem le_foldl_max (a : ℝ) (l : List ℝ) : a ≤ l.foldl max a := by
  induction l generalizing a with
  | nil => exact le_refl a
  | cons c cs ih => exact le_trans (le_max_left a c) (ih (max a c))

theorem maxOf_head_le (v : ℝ) (vs : List ℝ) : v ≤ maxOf (v :: vs) := by
  simpa [maxOf] using le_foldl_max v vs

/-- Every member of a dense layer with sigmoid activation lies in [0, 1]. -/
theorem dense_sigmoid_mem_bounds (w : List (List ℝ)) (b x : List ℝ) :
    ∀ y ∈ dense sigmoid w b x, 0 ≤ y ∧ y ≤ 1 := by
  intro y hy
  unfold dense at hy
  rcases List.mem_map.mp hy with ⟨rb, _, rfl⟩
  exact ⟨le_of_lt (sigmoid_pos _), sigmoid_le_one _⟩

/-- On a nonempty vector whose maximum is nonzero the confidence heuristic
returns a value clamped into [0, 1]. -/
theorem calculateConfidence_of_max_ne_zero (v : ℝ) (vs : List ℝ)
    (hmx : maxOf (v :: vs) ≠ 0) :
    ∃ c, calculateConfidence (v :: vs) = some c ∧ 0 ≤ c ∧ c ≤ 1 := by
  refine ⟨max 0 (min 1 (1 - (maxOf (v :: vs) - minOf (v :: vs)) / maxOf (v :: vs))), ?_, ?_, ?_⟩
  · simp [calculateConfidence, hmx]
  · exact le_max_left 0 _
  · exact max_le (by norm_num) (min_le_left 1 _)

theorem dense_cons (act : ℝ → ℝ) (w : List ℝ) (ws : List (List ℝ)) (b : ℝ) (bs x : List ℝ) :
    dense act (w :: ws) (b :: bs) x = act (dot w x + b) :: dense act ws bs x := by
  simp [dense]

theorem dot_cons (w a : ℝ) (ws as : List ℝ) :
    dot (w :: ws) (a :: as) = w * a + dot ws as := by
  simp [dot]

theorem dot_replicate_zero (m : ℕ) (x : List ℝ) : dot (List.replicate m 0) x = 0 := by
  induction x generalizing m with
  | nil => cases m <;> simp [dot]
  | cons a as ih =>
    cases m with
    | zero => simp [dot]
    | succ m => rw [List.replicate_succ, dot_cons, ih]; ring

theorem relu_zero : relu 0 = (0 : ℝ) := by simp [relu]

theorem dense_replicate_zero (act : ℝ → ℝ) (n m : ℕ) (c : ℝ) (x : List ℝ) :
    dense act (List.replicate n (List.replicate m 0)) (List.replicate n c) x =
      List.replicate n (act c) := by
  induction n with
  | zero => simp [dense]
  | succ n ih =>
    rw [List.replicate_succ, List.replicate_succ, dense_cons, ih, dot_replicate_zero, zero_add,
      List.replicate_succ]

theorem batchNorm_cons (a b c : ℝ) (as bs cs : List ℝ) :
    batchNorm (a :: as) (b :: bs) (c :: cs) = (a * c + b) :: batchNorm as bs cs := by
  simp [batchNorm]

theorem batchNorm_replicate_zero (n : ℕ) :
    batchNorm (List.replicate n 0) (List.replicate n 0) (List.replicate n (0 : ℝ)) =
      List.replicate n 0 := by
  induction n with
  | zero => simp [batchNorm]
  | succ n ih =>
    rw [List.replicate_succ, batchNorm_cons, ih]
    norm_num

/-- The confidence heuristic on the output of a sigmoid dense layer with at
least one unit is defined (not NaN) and clamped into [0, 1], because every
sigmoid output is strictly positive, hence so is the maximum. -/
theorem confidence_of_dense_sigmoid (w : List (List ℝ)) (b x : List ℝ)
    (hw : w ≠ []) (hb : b ≠ []) :
    ∃ c, calculateConfidence (dense sigmoid w b x) = some c ∧ 0 ≤ c ∧ c ≤ 1 := by
  match w, hw, b, hb with
  | a :: as, _, p :: ps, _ =>
    rw [dense_cons]
    have hpos : 0 < sigmoid (dot a x + p) := sigmoid_pos _
    have hmx : maxOf (sigmoid (dot a x + p) :: dense sigmoid as ps x) ≠ 0 :=
      ne_of_gt (lt_of_lt_of_le hpos (maxOf_head_le _ _))
    exact calculateConfidence_of_max_ne_zero _ _ hmx

/-- C1, amended.  The route-optimizer and maintenance-forecaster networks
end in a sigmoid layer, so for every input and every choice of learned
parameters each raw output component lies in [0, 1] and the derived
confidence lies in [0, 1].  (The fuel-predictor network ends in a linear
layer and its raw components are not constrained to [0, 1]; see the
counterexample.) -/
theorem C1_amended_theorem (pr : RouteNetParams) (pm : MaintNetParams) (xr xm : List ℝ)
    (hw4 : pr.w4 ≠ []) (hb4 : pr.b4 ≠ []) (hw5 : pm.w5 ≠ []) (hb5 : pm.b5 ≠ []) :
    (∀ y ∈ routeForward pr xr, 0 ≤ y ∧ y ≤ 1) ∧
    (∃ c, calculateConfidence (routeForward pr xr) = some c ∧ 0 ≤ c ∧ c ≤ 1) ∧
    (∀ y ∈ maintForward pm xm, 0 ≤ y ∧ y ≤ 1) ∧
    (∃ c, calculateConfidence (maintForward pm xm) = some c ∧ 0 ≤ c ∧ c ≤ 1) :=
  ⟨dense_sigmoid_mem_bounds _ _ _,
   confidence_of_dense_sigmoid _ _ _ hw4 hb4,
   dense_sigmoid_mem_bounds _ _ _,
   confidence_of_dense_sigmoid _ _ _ hw5 hb5⟩

theorem C1_witness :
    (routeWitnessParams.w4 ≠ [] ∧ routeWitnessParams.b4 ≠ [] ∧
      maintWitnessParams.w5 ≠ [] ∧ maintWitnessParams.b5 ≠ []) ∧
    ((∀ y ∈ routeForward routeWitnessParams [], 0 ≤ y ∧ y ≤ 1) ∧
      (∃ c, calculateConfidence (routeForward routeWitnessParams []) = some c ∧ 0 ≤ c ∧ c ≤ 1) ∧
      (∀ y ∈ maintForward maintWitnessParams [], 0 ≤ y ∧ y ≤ 1) ∧
      (∃ c, calculateConfidence (maintForward maintWitnessParams []) = some c ∧ 0 ≤ c ∧ c ≤ 1)) := by
  have h1 : routeWitnessParams.w4 ≠ [] := by simp [routeWitnessParams]
  have h2 : routeWitnessParams.b4 ≠ [] := by simp [routeWitnessParams]
  have h3 : maintWitnessParams.w5 ≠ [] := by simp [maintWitnessParams]
  have h4 : maintWitnessParams.b5 ≠ [] := by simp [maintWitnessParams]
  exact ⟨⟨h1, h2, h3, h4⟩, C1_amended_theorem routeWitnessParams maintWitnessParams [] [] h1 h2 h3 h4⟩

/-- C1 counterexample: the fuel-predictor network has a linear (not
saturating) output layer, so its raw prediction components are not
constrained to [0, 1]: with the zero weights and output bias 2 above it
returns the raw vector (2, 2, 2) on the all-zero input, and 2 is outside
[0, 1]. -/
theorem C1_counterexample :
    fuelForward fuelCexParams (List.replicate 20 0) = [2, 2, 2] ∧ ¬ ((2 : ℝ) ≤ 1) := by
  constructor
  · simp only [fuelForward, fuelCexParams, dense_replicate_zero, relu_zero,
      batchNorm_replicate_zero, id_eq]
    norm_num [List.replicate_succ]
  · norm_num

theorem historyAfter_eq_suffix (es : List PredictionEntry) :
    historyAfter es = es.drop (es.length - 1000) := by
  induction es using List.reverseRecOn with
  | nil => rfl
  | append_singleton l e ih =>
    have hfold : historyAfter (l ++ [e]) = recordPrediction (historyAfter l) e := by
      simp [historyAfter, List.foldl_append]
    rw [hfold, ih]
    by_cases hlen : l.length < 1000
    · have h0 : l.length - 1000 = 0 := by omega
      have h1 : (l ++ [e]).length - 1000 = 0 := by simp; omega
      have h2 : ¬ 1000 < (l ++ [e]).length := by simp; omega
      simp only [recordPrediction, h0, List.drop_zero]
      rw [if_neg h2, h1, List.drop_zero]
    · push_neg at hlen
      have hdl : (l.drop (l.length - 1000)).length = 1000 := by
        rw [List.length_drop]; omega
      have hcond : 1000 < (l.drop (l.length - 1000) ++ [e]).length := by
        simp [hdl]
      have hdrop1 : (l.drop (l.length - 1000) ++ [e]).length - 1000 = 1 := by
        simp [hdl]
      simp only [recordPrediction]
      rw [if_pos hcond, hdrop1,
        List.drop_append_of_le_length (show 1 ≤ (l.drop (l.length - 1000)).length by omega),
        List.drop_drop,
        List.drop_append_of_le_length
          (show (l ++ [e]).length - 1000 ≤ l.length by
            simp only [List.length_append, List.length_cons, List.length_nil]; omega)]
      have hidx : l.length - 1000 + 1 = (l ++ [e]).length - 1000 := by simp; omega
      rw [hidx]

/-- C2: after any sequence of recorded predictions the history is exactly
the length-min(total, 1000) suffix of the full append sequence (strict FIFO
eviction of the oldest entries), and in particular it never holds more than
1000 entries. -/
theorem C2_history_fifo_bound (es : List PredictionEntry) :
    historyAfter es = es.drop (es.length - 1000) ∧
    (historyAfter es).length = min es.length 1000 ∧
    (historyAfter es).length ≤ 1000 := by
  refine ⟨historyAfter_eq_suffix es, ?_, ?_⟩ <;>
    rw [historyAfter_eq_suffix, List.length_drop] <;> omega

set_option maxRecDepth 8000 in
attribute [local semireducible] Rat.mul Rat.inv Rat.add Rat.sub in
/-- C3 counterexample: on `staleFuelHistory` the fuel-predictor has 100
history entries, all successful with confidence 1, so the claimed score
(over the last 100 entries for that model) is 0.7 x 1 + 0.3 x 1 = 1; but
the code slices the last 100 entries of the WHOLE history first, finds no
fuel-predictor entries there, and assigns the default 0.5. -/
theorem C3_counterexample :
    evaluateModel staleFuelHistory "fuel-predictor" = 1/2 ∧
    evaluateModelClaimed staleFuelHistory "fuel-predictor" = 1 ∧
    (1/2 : ℚ) ≠ 1 := by
  refine ⟨by decide, by decide, by decide⟩

/-- C3, amended: for every history state and model name, the score is
0.7 x successRate + 0.3 x meanConfidence computed over that model's entries
among the most recent 100 entries of the whole history, and it is exactly
0.5 when the model has no entries among those most recent 100. -/
theorem C3_amended_theorem (history : List PredictionEntry) (modelName : String) :
    evaluateModel history modelName =
      (let ms := (history.drop (history.length - 100)).filter fun p => p.modelName == modelName
       if ms = [] then 1/2
       else (7/10) * ((ms.countP fun p => p.success : ℚ) / ms.length) +
         (3/10) * ((ms.map fun p => p.confidence).sum / ms.length)) := by
  have hfold : ∀ (l : List PredictionEntry) (a : ℚ),
      l.foldl (fun sum p => sum + p.confidence) a = a + (l.map fun p => p.confidence).sum := by
    intro l
    induction l with
    | nil => intro a; simp
    | cons x xs ih => intro a; simp [ih]; ring
  simp only [evaluateModel]
  cases h : (history.drop (history.length - 100)).filter fun p => p.modelName == modelName with
  | nil => simp
  | cons x xs =>
    have hpos : 0 < (x :: xs).length := by simp
    rw [if_pos hpos, if_neg (List.cons_ne_nil x xs)]
    rw [hfold, zero_add, List.countP_eq_length_filter]
    ring

/-- C5 counterexample: calling train on a freshly constructed (never
initialized) model does NOT auto-initialize; it fails with the
Model-not-initialized error.  Concrete instance: the trivial network type
with a trivial fitting function and an empty sample set. -/
theorem C5_counterexample :
    BaseModel.train (fun (_ : Unit) (_ : TrainingData) => ()) BaseModel.initialState
      ⟨[], [], 1/5⟩ = Except.error "Model not initialized" := rfl

/-- C5, amended: for every training-sample set, train called while the
model is absent (uninitialized or disposed) fails with the
Model-not-initialized error rather than auto-initializing. -/
theorem C5_amended_theorem {Net Hist : Type} (fit : Net → TrainingData → Hist)
    (st : BaseModelState Net) (td : TrainingData) (h : st.model = none) :
    BaseModel.train fit st td = Except.error "Model not initialized" := by
  unfold BaseModel.train
  rw [h]

theorem C5_witness :
    (@BaseModel.initialState Unit).model = none ∧
    BaseModel.train (fun (_ : Unit) (_ : TrainingData) => PUnit.unit) BaseModel.initialState
      ⟨[], [], 1/5⟩ = Except.error "Model not initialized" :=
  ⟨rfl, C5_amended_theorem _ _ _ rfl⟩

theorem recordPrediction_getLast (history : List PredictionEntry) (e : PredictionEntry) :
    (recordPrediction history e).getLast? = some e := by
  unfold recordPrediction
  by_cases h : 1000 < (history ++ [e]).length
  · rw [if_pos h]
    have hle : (history ++ [e]).length - 1000 ≤ history.length := by
      simp only [List.length_append, List.length_cons, List.length_nil]; omega
    rw [List.drop_append_of_le_length hle]
    exact List.getLast?_concat _
  · rw [if_neg h]
    exact List.getLast?_concat _

/-! ## Theorems for the confidence heuristic (C4) -/

/-- C4, amended: on a nonempty raw vector the confidence is the clamped
spread formula whenever max is nonzero; when max is 0 with a negative
component the clamp yields 0; but on the all-zero vector the source
computes 0/0 = NaN, which survives the clamp, so no numeric confidence (in
particular not 0) is returned.  Every returned confidence lies in [0,1]. -/
theorem C4_amended_theorem (v : ℝ) (vs : List ℝ) :
    (maxOf (v :: vs) ≠ 0 →
      calculateConfidence (v :: vs) =
        some (max 0 (min 1 (1 - (maxOf (v :: vs) - minOf (v :: vs)) / maxOf (v :: vs))))) ∧
    (maxOf (v :: vs) = 0 → minOf (v :: vs) ≠ 0 → calculateConfidence (v :: vs) = some 0) ∧
    (maxOf (v :: vs) = 0 → minOf (v :: vs) = 0 → calculateConfidence (v :: vs) = none) ∧
    (∀ c, calculateConfidence (v :: vs) = some c → 0 ≤ c ∧ c ≤ 1) := by
  refine ⟨fun hmx => ?_, fun hmx hmn => ?_, fun hmx hmn => ?_, fun c hc => ?_⟩
  · simp only [calculateConfidence]
    rw [if_neg hmx]
  · simp only [calculateConfidence]
    rw [if_pos hmx, if_neg (show ¬(maxOf (v :: vs) - minOf (v :: vs) = 0) from
      fun h => hmn (by rw [hmx, sub_eq_zero] at h; exact h.symm))]
  · simp only [calculateConfidence]
    rw [if_pos hmx, if_pos (by rw [hmx, hmn, sub_zero])]
  · simp only [calculateConfidence] at hc
    by_cases hmx : maxOf (v :: vs) = 0
    · rw [if_pos hmx] at hc
      by_cases hr : maxOf (v :: vs) - minOf (v :: vs) = 0
      · rw [if_pos hr] at hc; exact absurd hc (by simp)
      · rw [if_neg hr] at hc
        obtain rfl : (0 : ℝ) = c := Option.some.inj hc
        exact ⟨le_refl 0, zero_le_one⟩
    · rw [if_neg hmx] at hc
      obtain rfl := Option.some.inj hc
      exact ⟨le_max_left 0 _, max_le (by norm_num) (min_le_left 1 _)⟩

theorem C4_witness :
    maxOf [(1 : ℝ)] ≠ 0 ∧
    calculateConfidence [(1 : ℝ)] =
      some (max 0 (min 1 (1 - (maxOf [(1 : ℝ)] - minOf [(1 : ℝ)]) / maxOf [(1 : ℝ)]))) := by
  have h : maxOf [(1 : ℝ)] ≠ 0 := by norm_num [maxOf]
  exact ⟨h, (C4_amended_theorem 1 []).1 h⟩

/-- C4 counterexample: on the all-zero raw vector (of the fuel-predictor
arity, and producible by its linear output layer) the maximum is 0, yet the
source returns NaN, not 0: Math.max(0, Math.min(1, 1 - 0/0)) is NaN. -/
theorem C4_counterexample :
    calculateConfidence [(0 : ℝ), 0, 0] = none ∧ (none : Option ℝ) ≠ some 0 := by
  constructor
  · norm_num [calculateConfidence, maxOf, minOf]
  · simp

/-! ## Theorems for maintenance post-processing (C6, C7) -/

/-- C6: the maintenance type of a prediction is emergency exactly when the
raw risk exceeds 0.9 or the raw urgency exceeds 0.9, otherwise corrective
exactly when the risk exceeds 0.6, otherwise preventive; and with urgency
fixed, raising a risk already above 0.6 can never yield preventive. -/
theorem C6_maintenance_type_thresholds (raw : Raw5) (conf : ℚ) (input : MaintenanceInput)
    (now higherRisk : ℚ) :
    ((predictMaintenance raw conf input now).maintenanceType = MaintenanceKind.emergency ↔
      raw.riskScore > 9/10 ∨ raw.urgencyFactor > 9/10) ∧
    ((predictMaintenance raw conf input now).maintenanceType = MaintenanceKind.corrective ↔
      raw.riskScore ≤ 9/10 ∧ raw.urgencyFactor ≤ 9/10 ∧ raw.riskScore > 3/5) ∧
    ((predictMaintenance raw conf input now).maintenanceType = MaintenanceKind.preventive ↔
      raw.riskScore ≤ 3/5 ∧ raw.urgencyFactor ≤ 9/10) ∧
    (raw.riskScore ≤ higherRisk → raw.riskScore > 3/5 →
      (predictMaintenance { raw with riskScore := higherRisk } conf input
          now).maintenanceType ≠ MaintenanceKind.preventive) := by
  have hmt : ∀ r : Raw5,
      (predictMaintenance r conf input now).maintenanceType =
        if r.riskScore > 9/10 ∨ r.urgencyFactor > 9/10 then MaintenanceKind.emergency
        else if r.riskScore > 3/5 then MaintenanceKind.corrective
        else MaintenanceKind.preventive := fun r => rfl
  refine ⟨?_, ?_, ?_, fun hle hgt => ?_⟩
  · rw [hmt]
    by_cases he : raw.riskScore > 9/10 ∨ raw.urgencyFactor > 9/10
    · rw [if_pos he]
      exact iff_of_true rfl he
    · by_cases hc : raw.riskScore > 3/5
      · rw [if_neg he, if_pos hc]
        exact iff_of_false (by simp) he
      · rw [if_neg he, if_neg hc]
        exact iff_of_false (by simp) he
  · rw [hmt]
    by_cases he : raw.riskScore > 9/10 ∨ raw.urgencyFactor > 9/10
    · rw [if_pos he]
      exact iff_of_false (by simp) fun hrhs =>
        he.elim (fun h => absurd h (not_lt.mpr hrhs.1)) fun h => absurd h (not_lt.mpr hrhs.2.1)
    · by_cases hc : raw.riskScore > 3/5
      · rw [if_neg he, if_pos hc]
        rw [not_or] at he
        exact iff_of_true rfl ⟨le_of_not_lt he.1, le_of_not_lt he.2, hc⟩
      · rw [if_neg he, if_neg hc]
        exact iff_of_false (by simp) fun hrhs => hc hrhs.2.2
  · rw [hmt]
    by_cases he : raw.riskScore > 9/10 ∨ raw.urgencyFactor > 9/10
    · rw [if_pos he]
      exact iff_of_false (by simp) fun hrhs =>
        he.elim (fun h => absurd h (not_lt.mpr (le_trans hrhs.1 (by norm_num)))) fun h =>
          absurd h (not_lt.mpr hrhs.2)
    · by_cases hc : raw.riskScore > 3/5
      · rw [if_neg he, if_pos hc]
        exact iff_of_false (by simp) fun hrhs => absurd hc (not_lt.mpr hrhs.1)
      · rw [if_neg he, if_neg hc]
        rw [not_or] at he
        exact iff_of_true rfl ⟨le_of_not_lt hc, le_of_not_lt he.2⟩
  · rw [hmt]
    have hgt2 : (3 : ℚ)/5 < ({ raw with riskScore := higherRisk } : Raw5).riskScore :=
      lt_of_lt_of_le hgt hle
    by_cases hor : ({ raw with riskScore := higherRisk } : Raw5).riskScore > 9/10 ∨
        ({ raw with riskScore := higherRisk } : Raw5).urgencyFactor > 9/10
    · rw [if_pos hor]
      simp
    · rw [if_neg hor, if_pos hgt2]
      simp

theorem C6_witness :
    (((predictMaintenance ⟨7/10, 0, 0, 0, 0⟩ 1 sampleInput 0).maintenanceType =
        MaintenanceKind.emergency ↔ (7/10 : ℚ) > 9/10 ∨ (0 : ℚ) > 9/10) ∧
      ((predictMaintenance ⟨7/10, 0, 0, 0, 0⟩ 1 sampleInput 0).maintenanceType =
        MaintenanceKind.corrective ↔
          (7/10 : ℚ) ≤ 9/10 ∧ (0 : ℚ) ≤ 9/10 ∧ (7/10 : ℚ) > 3/5) ∧
      ((predictMaintenance ⟨7/10, 0, 0, 0, 0⟩ 1 sampleInput 0).maintenanceType =
        MaintenanceKind.preventive ↔ (7/10 : ℚ) ≤ 3/5 ∧ (0 : ℚ) ≤ 9/10)) ∧
    (predictMaintenance ⟨19/20, 0, 0, 0, 0⟩ 1 sampleInput 0).maintenanceType ≠
      MaintenanceKind.preventive := by
  have h := C6_maintenance_type_thresholds ⟨7/10, 0, 0, 0, 0⟩ 1 sampleInput 0 (19/20)
  exact ⟨⟨h.1, h.2.1, h.2.2.1⟩,
    h.2.2.2 (show (7/10 : ℚ) ≤ 19/20 by norm_num) (show (7/10 : ℚ) > 3/5 by norm_num)⟩

/-- C7, amended: a failure date is emitted exactly when the raw risk
exceeds 0.8, placed `max(1, interval x 1.2 x (1 - daysToFailureFactor))`
days ahead (the source floors the predicted days-to-failure at 1 day),
where the interval is the mean historical maintenance interval (365 when
fewer than two history events exist); the recommended date is 0.7 x the
predicted days-to-failure ahead, floored at 7 days. -/
theorem C7_amended_theorem (raw : Raw5) (conf : ℚ) (input : MaintenanceInput) (now : ℚ) :
    (raw.riskScore > 4/5 →
      (predictMaintenance raw conf input now).predictedFailureDate =
        some (now + max 1 (calculateAverageMaintenanceInterval
          (input.component.maintenanceHistory.getD []) * (6/5) *
            (1 - raw.daysToFailureFactor)) * dayMs)) ∧
    (raw.riskScore ≤ 4/5 →
      (predictMaintenance raw conf input now).predictedFailureDate = none) ∧
    (predictMaintenance raw conf input now).recommendedMaintenanceDate =
      now + max 7 (max 1 (calculateAverageMaintenanceInterval
        (input.component.maintenanceHistory.getD []) * (6/5) *
          (1 - raw.daysToFailureFactor)) * (7/10)) * dayMs := by
  have hdate : (predictMaintenance raw conf input now).predictedFailureDate =
      if raw.riskScore > 4/5 then
        some (now + max 1 (calculateAverageMaintenanceInterval
          (input.component.maintenanceHistory.getD []) * (6/5) *
            (1 - raw.daysToFailureFactor)) * dayMs)
      else none := rfl
  refine ⟨fun h => ?_, fun h => ?_, rfl⟩
  · rw [hdate, if_pos h]
  · rw [hdate, if_neg (not_lt.mpr h)]

theorem C7_witness :
    (predictMaintenance ⟨9/10, 0, 0, 0, 0⟩ 1 sampleInput 0).predictedFailureDate =
      some (0 + max 1 (calculateAverageMaintenanceInterval
        (sampleInput.component.maintenanceHistory.getD []) * (6/5) * (1 - 0)) * dayMs) ∧
    (predictMaintenance ⟨1/2, 0, 0, 0, 0⟩ 1 sampleInput 0).predictedFailureDate = none :=
  ⟨(C7_amended_theorem ⟨9/10, 0, 0, 0, 0⟩ 1 sampleInput 0).1
      (show (9/10 : ℚ) > 4/5 by norm_num),
   (C7_amended_theorem ⟨1/2, 0, 0, 0, 0⟩ 1 sampleInput 0).2.1
      (show (1/2 : ℚ) ≤ 4/5 by norm_num)⟩

attribute [local semireducible] Rat.mul Rat.inv Rat.add Rat.sub in
/-- C7 counterexample: with two same-day history events the mean interval
is 0 days, so the claimed failure date would be now + 0 x 1.2 x (1 - 0.5)
days = now; but the source floors the predicted days-to-failure at 1 day
and emits now + 1 day instead. -/
theorem C7_counterexample :
    (predictMaintenance ⟨9/10, 1/2, 0, 0, 0⟩ 1 sameDayHistoryInput 0).predictedFailureDate ≠
      some (0 + calculateAverageMaintenanceInterval twoSameDayEvents * (6/5) *
        (1 - (1/2 : ℚ)) * dayMs) := by
  decide

/-! ## Theorems for fleet health analysis (C8) -/

theorem foldl_add_map {α : Type} (f : α → ℚ) (l : List α) (a : ℚ) :
    l.foldl (fun sum p => sum + f p) a = a + (l.map f).sum := by
  induction l generalizing a with
  | nil => simp
  | cons x xs ih => simp [ih]; ring

/-- The loop of analyzeFleetHealth accumulates exactly the predictions of
the successfully predicted inputs, their critical-issue strings (risk above
0.8) and their upcoming entries (risk above 0.5), in input order. -/
theorem fleetFold_eq (net : MaintenanceInput → Option (Raw5 × ℚ)) (now : ℚ)
    (inputs : List MaintenanceInput) (acc : FleetAcc) :
    inputs.foldl (fleetStep net now) acc =
      { predictions := acc.predictions ++ (successPairs net now inputs).map fun ip => ip.2
        criticalIssues := acc.criticalIssues ++
          ((successPairs net now inputs).filter fun ip => ip.2.riskScore > 4/5).map
            fun ip => criticalIssueMessage ip.1
        upcomingMaintenance := acc.upcomingMaintenance ++
          ((successPairs net now inputs).filter fun ip => ip.2.riskScore > 1/2).map
            fun ip => upcomingEntryOf ip.1 ip.2 } := by
  induction inputs generalizing acc with
  | nil => simp [successPairs]
  | cons i is ih =>
    cases h : net i with
    | none =>
      simp only [List.foldl_cons, fleetStep, h]
      rw [ih]
      simp [successPairs, List.filterMap_cons, h]
    | some rc =>
      simp only [List.foldl_cons, fleetStep, h]
      rw [ih]
      simp only [successPairs, List.filterMap_cons, h, Option.map_some', List.map_cons,
        List.filter_cons, decide_eq_true_eq, List.append_assoc, FleetAcc.mk.injEq]
      refine ⟨by simp, ?_, ?_⟩ <;> split_ifs <;> simp

/-- C8: with at least one successful prediction, analyzeFleetHealth
computes overall health as the mean of (1 - riskScore) over the successful
predictions; the trend by thresholding the mean risk (above 0.6 degrading,
below 0.3 improving, else stable); one critical-issue string per prediction
with risk above 0.8; and one upcoming-maintenance entry per prediction with
risk above 0.5, sorted ascending by recommended date.  In particular when
every successful prediction has riskScore 0 the overall health is 1, the
trend is improving and there are no critical issues. -/
theorem C8_fleet_health (net : MaintenanceInput → Option (Raw5 × ℚ)) (now : ℚ)
    (inputs : List MaintenanceInput)
    (hne : successPairs net now inputs ≠ []) :
    (analyzeFleetHealth net now inputs).overall =
      ((successPairs net now inputs).map fun ip => 1 - ip.2.riskScore).sum /
        (successPairs net now inputs).length ∧
    (analyzeFleetHealth net now inputs).trend =
      (if ((successPairs net now inputs).map fun ip => ip.2.riskScore).sum /
            (successPairs net now inputs).length > 3/5 then HealthTrend.degrading
       else if ((successPairs net now inputs).map fun ip => ip.2.riskScore).sum /
            (successPairs net now inputs).length < 3/10 then HealthTrend.improving
       else HealthTrend.stable) ∧
    (analyzeFleetHealth net now inputs).criticalIssues =
      ((successPairs net now inputs).filter fun ip => ip.2.riskScore > 4/5).map
        (fun ip => criticalIssueMessage ip.1) ∧
    (analyzeFleetHealth net now inputs).upcomingMaintenance.Pairwise
      (fun a b => a.date ≤ b.date) ∧
    List.Perm (analyzeFleetHealth net now inputs).upcomingMaintenance
      (((successPairs net now inputs).filter fun ip => ip.2.riskScore > 1/2).map
        fun ip => upcomingEntryOf ip.1 ip.2) ∧
    ((∀ ip ∈ successPairs net now inputs, ip.2.riskScore = 0) →
      (analyzeFleetHealth net now inputs).overall = 1 ∧
      (analyzeFleetHealth net now inputs).trend = HealthTrend.improving ∧
      (analyzeFleetHealth net now inputs).criticalIssues = []) := by
  have hacc := fleetFold_eq net now inputs ⟨[], [], []⟩
  have hpos : 0 < ((successPairs net now inputs).map fun ip => ip.2).length := by
    rw [List.length_map]
    exact List.length_pos.mpr hne
  have hover : (analyzeFleetHealth net now inputs).overall =
      ((successPairs net now inputs).map fun ip => 1 - ip.2.riskScore).sum /
        (successPairs net now inputs).length := by
    simp only [analyzeFleetHealth, hacc, List.nil_append]
    rw [if_pos hpos, foldl_add_map, zero_add, List.map_map, List.length_map]
    rfl
  have htrend : (analyzeFleetHealth net now inputs).trend =
      (if ((successPairs net now inputs).map fun ip => ip.2.riskScore).sum /
            (successPairs net now inputs).length > 3/5 then HealthTrend.degrading
       else if ((successPairs net now inputs).map fun ip => ip.2.riskScore).sum /
            (successPairs net now inputs).length < 3/10 then HealthTrend.improving
       else HealthTrend.stable) := by
    simp only [analyzeFleetHealth, hacc, List.nil_append]
    rw [if_neg (by simp [List.isEmpty_iff, hne]), foldl_add_map, zero_add, List.map_map,
      List.length_map]
    rfl
  have hcrit : (analyzeFleetHealth net now inputs).criticalIssues =
      ((successPairs net now inputs).filter fun ip => ip.2.riskScore > 4/5).map
        (fun ip => criticalIssueMessage ip.1) := by
    simp only [analyzeFleetHealth, hacc, List.nil_append]
  have hupc : (analyzeFleetHealth net now inputs).upcomingMaintenance =
      (((successPairs net now inputs).filter fun ip => ip.2.riskScore > 1/2).map
        fun ip => upcomingEntryOf ip.1 ip.2).mergeSort fun a b => decide (a.date ≤ b.date) := by
    simp only [analyzeFleetHealth, hacc, List.nil_append]
  refine ⟨hover, htrend, hcrit, ?_, ?_, fun hzero => ?_⟩
  · rw [hupc]
    have hsorted := @List.sorted_mergeSort UpcomingEntry
      (fun a b : UpcomingEntry => decide (a.date ≤ b.date))
      (fun a b c hab hbc => by
        simp only [decide_eq_true_eq] at *
        exact le_trans hab hbc)
      (fun a b => by
        simp only [Bool.or_eq_true, decide_eq_true_eq]
        exact le_total a.date b.date)
      (((successPairs net now inputs).filter fun ip => ip.2.riskScore > 1/2).map
        fun ip => upcomingEntryOf ip.1 ip.2)
    exact hsorted.imp fun h => of_decide_eq_true h
  · rw [hupc]
    exact List.mergeSort_perm _ _
  · have hsum1 : ((successPairs net now inputs).map fun ip => 1 - ip.2.riskScore) =
        List.replicate (successPairs net now inputs).length 1 := by
      rw [← List.map_const']
      exact List.map_congr_left fun ip hip => by rw [hzero ip hip, sub_zero]
    have hsum0 : ((successPairs net now inputs).map fun ip => ip.2.riskScore) =
        List.replicate (successPairs net now inputs).length 0 := by
      rw [← List.map_const']
      exact List.map_congr_left fun ip hip => hzero ip hip
    have hlen : ((successPairs net now inputs).length : ℚ) ≠ 0 := by
      exact_mod_cast Nat.pos_iff_ne_zero.mp (List.length_pos.mpr hne)
    refine ⟨?_, ?_, ?_⟩
    · rw [hover, hsum1, List.sum_replicate, nsmul_eq_mul, mul_one, div_self hlen]
    · rw [htrend, hsum0, List.sum_replicate, nsmul_eq_mul, mul_zero, zero_div]
      norm_num
    · rw [hcrit, List.filter_eq_nil_iff.mpr fun ip hip => by
        simp only [hzero ip hip, decide_eq_true_eq, not_lt]
        norm_num]
      rfl

theorem C8_witness :
    (successPairs zeroNet 0 [sampleInput] ≠ [] ∧
      ∀ ip ∈ successPairs zeroNet 0 [sampleInput], ip.2.riskScore = 0) ∧
    ((analyzeFleetHealth zeroNet 0 [sampleInput]).overall = 1 ∧
      (analyzeFleetHealth zeroNet 0 [sampleInput]).trend = HealthTrend.improving ∧
      (analyzeFleetHealth zeroNet 0 [sampleInput]).criticalIssues = []) := by
  have hne : successPairs zeroNet 0 [sampleInput] ≠ [] := by
    simp [successPairs, zeroNet]
  have hzero : ∀ ip ∈ successPairs zeroNet 0 [sampleInput], ip.2.riskScore = 0 := by
    intro ip hip
    simp only [successPairs, zeroNet, List.filterMap_cons, Option.map_some',
      List.filterMap_nil, List.mem_cons, List.not_mem_nil, or_false] at hip
    rw [hip]
    rfl
  exact ⟨⟨hne, hzero⟩, (C8_fleet_health zeroNet 0 [sampleInput] hne).2.2.2.2.2 hzero⟩

/-- C9: the history entry the Orchestrator appends on a successful route
optimization stores the returned weatherRiskScore, which is the raw risk
component of the prediction vector, in the confidence field (the
spread-heuristic confidence of the prediction result is not consulted);
the fuel and maintenance success paths store the prediction confidence. -/
theorem C9_recorded_confidences (history : List PredictionEntry)
    (now timeFactor fuelFactor riskScore routeEfficiency conf : ℚ)
    (shipSpecs : RouteShipSpecs) (distance : ℚ) (optimizedRoute : List GeoPoint)
    (alts : List AlternativeRoute) (fuelPrediction : FuelPrediction)
    (maintPrediction : MaintenancePrediction) :
    (AIService.optimizeRouteRecord history now
        (optimizeRouteResult timeFactor fuelFactor riskScore routeEfficiency conf shipSpecs
          distance optimizedRoute alts)).getLast? =
      some ⟨"route-optimizer", now, riskScore, true⟩ ∧
    (optimizeRouteResult timeFactor fuelFactor riskScore routeEfficiency conf shipSpecs
        distance optimizedRoute alts).weatherRiskScore = riskScore ∧
    (AIService.predictFuelRecord history now fuelPrediction.confidence).getLast? =
      some ⟨"fuel-predictor", now, fuelPrediction.confidence, true⟩ ∧
    (AIService.predictMaintenanceRecord history now maintPrediction).getLast? =
      some ⟨"maintenance-forecaster", now, maintPrediction.confidence, true⟩ :=
  ⟨recordPrediction_getLast _ _, rfl, recordPrediction_getLast _ _,
    recordPrediction_getLast _ _⟩

/-- C10: preprocessInput writes exactly the dynamically validated fields of
the caller record in place: a missing maintenance history, missing sensor
series and missing last readings become their defaults (present values are
kept, now wrapped as present); every other field of the record is left
unchanged. -/
theorem C10_preprocess_frame (data : MaintenanceInput) (now : ℚ) :
    (preprocessInput data now).1.ship = data.ship ∧
    (preprocessInput data now).1.component.componentType = data.component.componentType ∧
    (preprocessInput data now).1.component.lastMaintenanceDate =
      data.component.lastMaintenanceDate ∧
    (preprocessInput data now).1.component.operatingConditions =
      data.component.operatingConditions ∧
    (preprocessInput data now).1.usage = data.usage ∧
    (preprocessInput data now).1.component.maintenanceHistory =
      some (data.component.maintenanceHistory.getD []) ∧
    (preprocessInput data now).1.sensors.temperature =
      some (data.sensors.temperature.getD []) ∧
    (preprocessInput data now).1.sensors.vibration =
      some (data.sensors.vibration.getD []) ∧
    (preprocessInput data now).1.sensors.pressure =
      some (data.sensors.pressure.getD []) ∧
    (preprocessInput data now).1.sensors.efficiency =
      some (data.sensors.efficiency.getD []) ∧
    (preprocessInput data now).1.sensors.lastReadings =
      some (data.sensors.lastReadings.getD defaultLastReadings) :=
  ⟨rfl, rfl, rfl, rfl, rfl, rfl, rfl, rfl, rfl, rfl, rfl⟩

end Ships
